import Mathlib

/-!
Shallow embedding of the core numeric and codec logic of the fs-upload-dapp
repository.

Conventions of the embedding:
- JavaScript byte arrays (Uint8Array) are modeled as List Nat whose elements
  are below 256 (non-negativity and byte range are stated as hypotheses or
  hold by construction).
- JavaScript bigint values are modeled as Int (or Nat where the source only
  ever produces non-negative values, e.g. uvarint decoding).
- Decimal.js arbitrary-precision decimal values are modeled as exact
  rationals; on the integer-valued quantities the claims quantify over,
  the Decimal operations used by the source (add, mul, sub, div, gte, gt,
  isZero) are exact. The special value Infinity produced by
  new Decimal(Infinity) is modeled by a dedicated constructor.
- Functions of the source that can throw are modeled as Except String,
  carrying the thrown message; functions that cannot throw are plain.
-/

/-! ## src/utils/cids.ts -/

/-- The fixed CommP v2 tag bytes: 0x01 (CIDv1), 0x55 (Raw), 0x91 0x20
(fr32-sha2-256-trunc254-padded-binary-tree). Source constant
COMMP_V2_PREFIX, renamed here. -/
def commPv2Tag : List Nat := [0x01, 0x55, 0x91, 0x20]

/-- Result of parseCommPFromCidBytes (interface ParsedCommP). -/
structure ParsedCommP where
  padding : Nat
  height : Nat
  digestOffset : Nat
  digest : List Nat
deriving DecidableEq, Repr

/-- Lowercase hex digit character for a nibble, as produced by
Number.prototype.toString(16). -/
def hexDigitChar (n : Nat) : Char :=
  if n < 10 then Char.ofNat (48 + n) else Char.ofNat (87 + n)

/-- bytes[i].toString(16).padStart(2, "0"): for a byte below 256 this is
exactly two lowercase hex characters. -/
def byteToHexChars (b : Nat) : List Char :=
  if b < 16 then ['0', hexDigitChar b]
  else [hexDigitChar (b / 16), hexDigitChar (b % 16)]

/-- bytesToHex: "0x" followed by two lowercase hex digits per byte. -/
def bytesToHex (bytes : List Nat) : List Char :=
  ['0', 'x'] ++ bytes.flatMap byteToHexChars

/-- Value of a single hex digit character as accepted by parseInt(s, 16)
(digits, lowercase and uppercase letters). -/
def hexDigitVal (c : Char) : Option Nat :=
  if 48 ≤ c.toNat ∧ c.toNat ≤ 57 then some (c.toNat - 48)
  else if 97 ≤ c.toNat ∧ c.toNat ≤ 102 then some (c.toNat - 87)
  else if 65 ≤ c.toNat ∧ c.toNat ≤ 70 then some (c.toNat - 55)
  else none

/-- parseInt(two-character slice, 16) followed by storage into a Uint8Array:
parseInt parses the longest valid prefix of the slice, and NaN (no valid
digit at all) is coerced to 0 by the typed-array store. -/
def hexPairVal (c1 c2 : Char) : Nat :=
  match hexDigitVal c1 with
  | none => 0
  | some d1 =>
    match hexDigitVal c2 with
    | none => d1
    | some d2 => 16 * d1 + d2

/-- The loop of hexToBytes: decode consecutive 2-character slices. -/
def hexPairsToBytes : List Char → List Nat
  | c1 :: c2 :: rest => hexPairVal c1 c2 :: hexPairsToBytes rest
  | _ => []

/-- hexToBytes: strips an optional 0x, rejects odd length, decodes pairs. -/
def hexToBytes (hex : List Char) : Except String (List Nat) :=
  let normalized := if hex.take 2 = ['0', 'x'] then hex.drop 2 else hex
  if normalized.length % 2 ≠ 0 then Except.error "Invalid hex: length must be even"
  else Except.ok (hexPairsToBytes normalized)

/-- The while-loop of readUvarint, restructured as structural recursion on
the byte suffix starting at the byte currently tested by the loop guard.
The first argument is the suffix whose head is data[offset + i] (an empty
list models an out-of-range read, which JavaScript treats as a byte that
fails the guard and contributes 0 data bits); i is the loop counter and
value the accumulator. Returns (value, number of bytes consumed). -/
def uvarintCont : List Nat → Nat → Nat → Nat × Nat
  | [], i, value => (value, i + 1)
  | b :: rest, i, value =>
    if b ≥ 0x80 then
      uvarintCont rest (i + 1) (value ||| ((rest.getD 0 0) % 128) <<< ((i + 1) * 7))
    else (value, i + 1)

/-- readUvarint(data, offset): little-endian base-128 varint starting at
offset; returns the value and the offset just past the varint. -/
def readUvarint (data : List Nat) (offset : Nat) : Nat × Nat :=
  let s := data.drop offset
  let r := uvarintCont s 0 ((s.getD 0 0) % 128)
  (r.1, offset + r.2)

/-- validateCommPv2Prefix (renamed): length and 4-byte tag check. -/
def validateCommPv2Tag (cidBytes : List Nat) : Except String Unit :=
  if cidBytes.length < 4 then Except.error "Cid data is too short"
  else if cidBytes.take 4 ≠ commPv2Tag then Except.error "Cid must be CommPv2 (bad prefix)"
  else Except.ok ()

/-- parseCommPFromCidBytes: tag, multihash length (uvarint, checked to be a
safe integer, at least 34, and to match the remaining byte count), padding
(uvarint), height (one byte), then a 32-byte digest slice. -/
def parseCommPFromCidBytes (cidBytes : List Nat) : Except String ParsedCommP :=
  match validateCommPv2Tag cidBytes with
  | Except.error e => Except.error e
  | Except.ok _ =>
    let r1 := readUvarint cidBytes 4
    let mhLength := r1.1
    let afterMhLen := r1.2
    if mhLength > 9007199254740991 then
      Except.error "Multihash length is not a safe integer"
    else if mhLength < 34 then
      Except.error "CommPv2 multihash length must be at least 34"
    else if afterMhLen + mhLength ≠ cidBytes.length then
      Except.error "CommPv2 multihash length does not match data length"
    else
      let r2 := readUvarint cidBytes afterMhLen
      let padding := r2.1
      let offset0 := r2.2
      if offset0 ≥ cidBytes.length then
        Except.error "Cid data is too short for height"
      else
        let height := cidBytes.getD offset0 0
        let offset := offset0 + 1
        let remaining := cidBytes.length - offset
        if remaining < 32 then
          Except.error "Cid data is too short for digest"
        else
          Except.ok ⟨padding, height, offset, (cidBytes.drop offset).take 32⟩

/-- isPaddingExcessive: (128 * padding) / 127 >= 1 << (height + 5).
Padding and height come from the parser and are non-negative, so bigint
division agrees with Nat division. -/
def isPaddingExcessive (padding height : Nat) : Bool :=
  let expandedPadding := 128 * padding / 127
  let capacity := 2 ^ (height + 5)
  expandedPadding ≥ capacity

/-- computePieceSizeBytes: (1 << (height + 5)) - (128 * padding) / 127,
clamped below at 0 exactly as the source writes it (signed difference,
then the clamp size >= 0 ? size : 0). -/
def computePieceSizeBytes (padding height : Nat) : Int :=
  let capacity : Int := 2 ^ (height + 5)
  let expandedPadding : Int := (128 * padding / 127 : Nat)
  let size := capacity - expandedPadding
  if size ≥ 0 then size else 0

/-- computeLeafCount: (1 << height) - ((128 * padding) / 127 >> 5),
clamped below at 0. -/
def computeLeafCount (padding height : Nat) : Int :=
  let paddingLeafs : Int := ((128 * padding / 127) >>> 5 : Nat)
  let totalLeaves : Int := 2 ^ height
  let withData := totalLeaves - paddingLeafs
  if withData ≥ 0 then withData else 0

deriving instance DecidableEq for Except

/-! ## src/utils/storageCalculations.ts -/

/-- Result record of calculateStorageSufficiency. -/
structure SufficiencyResult where
  isRateSufficient : Bool
  isLockupSufficient : Bool
  isSufficient : Bool
  totalRateNeeded : Int
deriving DecidableEq, Repr

/-- calculateStorageSufficiency: rate and lockup sufficiency over bigint
inputs and a numeric minDaysThreshold. All Decimal operations involved
(add, mul, gte) are exact on integers, and BigInt(totalRate.toFixed(0)) is
the identity on an integer-valued Decimal. -/
def calculateStorageSufficiency (currentRateAllowance currentRateUsed
    newRateNeeded remainingLockup dailyLockupRate : Int)
    (minDaysThreshold : Int) (isAdditionalStorage : Bool) : SufficiencyResult :=
  let totalRate := if isAdditionalStorage then currentRateUsed + newRateNeeded else newRateNeeded
  let minLockup := dailyLockupRate * minDaysThreshold
  let isRateSufficient := decide (currentRateAllowance ≥ totalRate)
  let isLockupSufficient := decide (remainingLockup ≥ minLockup)
  { isRateSufficient := isRateSufficient
    isLockupSufficient := isLockupSufficient
    isSufficient := isRateSufficient && isLockupSufficient
    totalRateNeeded := totalRate }

/-- Result record of calculateTotalStorageRequirements. -/
structure StorageRequirements where
  totalDepositNeeded : Int
  totalLockupNeeded : Int
  totalRateNeeded : Int
deriving DecidableEq, Repr

/-- calculateTotalStorageRequirements. The leading epochsPerDay argument
models the imported SDK constant TIME_CONSTANTS.EPOCHS_PER_DAY, whose
value is not part of this repository; the spec treats epoch-duration
constants as fixed configuration inputs. persistencePeriodDays is passed
as an integer, on which Number.prototype.toFixed(0) is the identity. -/
def calculateTotalStorageRequirements (epochsPerDay : Int)
    (currentLockupUsed currentLockupAllowance currentRateUsed
     currentRateAllowance newRateNeeded dailyLockupRate : Int)
    (persistencePeriodDays : Int) (currentBalance : Int) : StorageRequirements :=
  let storageCost := newRateNeeded * persistencePeriodDays * epochsPerDay
  let depositNeeded := if currentBalance ≥ storageCost then 0 else storageCost - currentBalance
  let persistenceCost := dailyLockupRate * persistencePeriodDays
  let projectedLockup := currentLockupUsed + persistenceCost
  let lockupNeeded := if projectedLockup > currentLockupAllowance then projectedLockup else currentLockupAllowance
  let totalRate := newRateNeeded + currentRateUsed
  let rateNeeded := if totalRate > currentRateAllowance then totalRate else currentRateAllowance
  { totalDepositNeeded := depositNeeded
    totalLockupNeeded := lockupNeeded
    totalRateNeeded := rateNeeded }

/-- The balance required to sustain the persistence-period target, as
computed inside calculateTotalStorageRequirements:
newRateNeeded * persistencePeriodDays * epochsPerDay. -/
def requiredBalanceForPeriod (epochsPerDay newRateNeeded persistencePeriodDays : Int) : Int :=
  newRateNeeded * persistencePeriodDays * epochsPerDay

/-- A Decimal value that is either finite (an exact rational) or the
positive infinity produced by new Decimal(Infinity). -/
inductive DecValue where
  | fin : Rat → DecValue
  | inf : DecValue
deriving DecidableEq, Repr

/-- calculatePersistenceDays: Infinity when the burn rate is zero,
otherwise exact decimal division. -/
def calculatePersistenceDays (lockupAllowance dailyBurnRate : Rat) : DecValue :=
  if dailyBurnRate = 0 then DecValue.inf
  else DecValue.fin (lockupAllowance / dailyBurnRate)

/-- SIZE_CONSTANTS.GiB from the SDK: 1024 cubed bytes. Modelled from the
spec: size constants are powers of 1024 and are pinned by the round-trip
property bytesToGiB (tibToBytes 1) = 1024. -/
def SIZE_CONSTANTS_GiB : Rat := 1024 ^ 3

/-- SIZE_CONSTANTS.TiB from the SDK: 1024 to the fourth power bytes. -/
def SIZE_CONSTANTS_TiB : Rat := 1024 ^ 4

/-- bytesToGiB: exact decimal division by the GiB constant. -/
def bytesToGiB (bytes : Rat) : Rat := bytes / SIZE_CONSTANTS_GiB

/-- tibToBytes: exact decimal multiplication by the TiB constant. -/
def tibToBytes (tib : Rat) : Rat := tib * SIZE_CONSTANTS_TiB

/-- calculateStorageCapacityGB: zero when the price is zero, otherwise
(rate * epochs * TiB) / price converted to GiB. -/
def calculateStorageCapacityGB (rateAllowance pricePerTiBPerMonth epochsPerMonth : Rat) : Rat :=
  if pricePerTiBPerMonth = 0 then 0
  else
    let monthlyBudget := rateAllowance * epochsPerMonth
    let capacityBytes := monthlyBudget * tibToBytes 1 / pricePerTiBPerMonth
    bytesToGiB capacityBytes

/-! ## Concrete piece identifiers used by the scenarios -/

/-- Scenario A identifier: CommPv2 tag, multihash length 34, one-byte
padding uvarint 0, height byte 5, 32 zero digest bytes (39 bytes total). -/
def scenarioACid : List Nat := [0x01, 0x55, 0x91, 0x20, 34, 0, 5] ++ List.replicate 32 0

/-- A CommPv2 identifier whose multihash length is 35, leaving 33 bytes
after the height byte: tag, multihash length 35, padding uvarint 0,
height byte 5, then 33 zero bytes (40 bytes total). -/
def oversizedDigestCid : List Nat := [0x01, 0x55, 0x91, 0x20, 35, 0, 5] ++ List.replicate 33 0

/-- A CommPv2 identifier with a two-byte padding uvarint (value 128) whose
multihash length 34 leaves only 31 bytes after the height byte. -/
def shortDigestCid : List Nat := [0x01, 0x55, 0x91, 0x20, 34, 0x80, 0x01, 5] ++ List.replicate 31 0

/-! ## Theorems -/

/-- C10: For every rateAllowance and epochsPerMonth, a zero price yields a
capacity of exactly 0: the division by the price is guarded, so no
division-by-zero error or infinite result arises. -/
theorem calculateStorageCapacityGB_zero_price :
    ∀ (rateAllowance epochsPerMonth : Rat),
      calculateStorageCapacityGB rateAllowance 0 epochsPerMonth = 0 := by
  intro rateAllowance epochsPerMonth
  simp [calculateStorageCapacityGB]

/-- C5: For every non-negative lockupAllowance and positive dailyBurnRate,
calculatePersistenceDays is exactly the quotient lockupAllowance divided by
dailyBurnRate (exact division, hence within 34 significant decimal
digits); and for every lockupAllowance a zero dailyBurnRate yields
positive infinity rather than an error. -/
theorem calculatePersistenceDays_spec :
    (∀ lockupAllowance dailyBurnRate : Rat,
      0 ≤ lockupAllowance → 0 < dailyBurnRate →
      calculatePersistenceDays lockupAllowance dailyBurnRate
        = DecValue.fin (lockupAllowance / dailyBurnRate)) ∧
    (∀ lockupAllowance : Rat,
      calculatePersistenceDays lockupAllowance 0 = DecValue.inf) := by
  constructor
  · intro a r _ hr
    simp [calculatePersistenceDays, ne_of_gt hr]
  · intro a
    simp [calculatePersistenceDays]

/-- C5 witness: the theorem applied at lockupAllowance 6, dailyBurnRate 3
and at lockupAllowance 5, dailyBurnRate 0. -/
theorem calculatePersistenceDays_spec_witness :
    calculatePersistenceDays 6 3 = DecValue.fin (6 / 3) ∧
    calculatePersistenceDays 5 0 = DecValue.inf :=
  ⟨calculatePersistenceDays_spec.1 6 3 (by norm_num) (by norm_num),
   calculatePersistenceDays_spec.2 5⟩

/-- C7: For every padding and every byte-valued height, excessive padding
forces a piece size of zero. -/
theorem isPaddingExcessive_zero_size :
    ∀ (padding height : Nat), height ≤ 255 →
      isPaddingExcessive padding height = true →
      computePieceSizeBytes padding height = 0 := by
  intro padding height _ hex
  have hex2 : 2 ^ (height + 5) ≤ 128 * padding / 127 := by
    simpa [isPaddingExcessive] using hex
  unfold computePieceSizeBytes
  rw [show ((2 : Int) ^ (height + 5)) = ((2 ^ (height + 5) : Nat) : Int) by push_cast; ring]
  generalize (2 : Nat) ^ (height + 5) = c at hex2 ⊢
  generalize 128 * padding / 127 = ep at hex2 ⊢
  dsimp only
  split <;> omega

/-- C7 witness: padding 32 at height 0 is excessive and the theorem gives
piece size 0 there. -/
theorem isPaddingExcessive_zero_size_witness :
    isPaddingExcessive 32 0 = true ∧ computePieceSizeBytes 32 0 = 0 :=
  ⟨by decide, isPaddingExcessive_zero_size 32 0 (by decide) (by decide)⟩

/-- C1: For all non-negative inputs with a positive minDaysThreshold,
calculateStorageSufficiency returns totalRateNeeded equal to
currentRateUsed + newRateNeeded when the additional-storage flag is set
and newRateNeeded otherwise; isRateSufficient compares the rate allowance
against that total; isLockupSufficient compares remainingLockup against
dailyLockupRate * minDaysThreshold; isSufficient is their conjunction.
In particular, at allowance 100, used 80, new 30 with the flag set, the
total is 110 and the rate is insufficient. -/
theorem calculateStorageSufficiency_spec :
    (∀ (cra cru nrn rl dlr mdt : Int) (isAdd : Bool),
      0 ≤ cra → 0 ≤ cru → 0 ≤ nrn → 0 ≤ rl → 0 ≤ dlr → 0 < mdt →
      (calculateStorageSufficiency cra cru nrn rl dlr mdt isAdd).totalRateNeeded
          = (if isAdd then cru + nrn else nrn) ∧
      (calculateStorageSufficiency cra cru nrn rl dlr mdt isAdd).isRateSufficient
          = decide (cra ≥ (if isAdd then cru + nrn else nrn)) ∧
      (calculateStorageSufficiency cra cru nrn rl dlr mdt isAdd).isLockupSufficient
          = decide (rl ≥ dlr * mdt) ∧
      (calculateStorageSufficiency cra cru nrn rl dlr mdt isAdd).isSufficient
          = ((calculateStorageSufficiency cra cru nrn rl dlr mdt isAdd).isRateSufficient
             && (calculateStorageSufficiency cra cru nrn rl dlr mdt isAdd).isLockupSufficient)) ∧
    (calculateStorageSufficiency 100 80 30 0 0 1 true).totalRateNeeded = 110 ∧
    (calculateStorageSufficiency 100 80 30 0 0 1 true).isRateSufficient = false := by
  refine ⟨fun cra cru nrn rl dlr mdt isAdd _ _ _ _ _ _ => ⟨rfl, rfl, rfl, rfl⟩, by decide, by decide⟩

/-- C1 witness: the general part of the theorem applied at the Scenario B
inputs (allowance 100, used 80, new 30, flag set, threshold 1). -/
theorem calculateStorageSufficiency_spec_witness :
    (calculateStorageSufficiency 100 80 30 0 0 1 true).totalRateNeeded
        = (if true then (80 : Int) + 30 else 30) ∧
    (calculateStorageSufficiency 100 80 30 0 0 1 true).isRateSufficient
        = decide ((100 : Int) ≥ (if true then (80 : Int) + 30 else 30)) ∧
    (calculateStorageSufficiency 100 80 30 0 0 1 true).isLockupSufficient
        = decide ((0 : Int) ≥ 0 * 1) ∧
    (calculateStorageSufficiency 100 80 30 0 0 1 true).isSufficient
        = ((calculateStorageSufficiency 100 80 30 0 0 1 true).isRateSufficient
           && (calculateStorageSufficiency 100 80 30 0 0 1 true).isLockupSufficient) :=
  calculateStorageSufficiency_spec.1 100 80 30 0 0 1 true (by decide) (by decide)
    (by decide) (by decide) (by decide) (by decide)

/-- C2: For all non-negative inputs, calculateTotalStorageRequirements
never returns totalLockupNeeded below currentLockupAllowance and never
returns totalRateNeeded below currentRateAllowance. -/
theorem calculateTotalStorageRequirements_monotone :
    ∀ (e clu cla cru cra nrn dlr d cb : Int),
      0 ≤ e → 0 ≤ clu → 0 ≤ cla → 0 ≤ cru → 0 ≤ cra → 0 ≤ nrn → 0 ≤ dlr → 0 ≤ d → 0 ≤ cb →
      cla ≤ (calculateTotalStorageRequirements e clu cla cru cra nrn dlr d cb).totalLockupNeeded ∧
      cra ≤ (calculateTotalStorageRequirements e clu cla cru cra nrn dlr d cb).totalRateNeeded := by
  intro e clu cla cru cra nrn dlr d cb _ _ _ _ _ _ _ _ _
  simp only [calculateTotalStorageRequirements]
  generalize dlr * d = pc
  generalize nrn * d * e = sc
  constructor <;> split <;> omega

/-- C2 witness: the monotone bounds at a concrete input where both maxima
are raised above the standing allowances. -/
theorem calculateTotalStorageRequirements_monotone_witness :
    (3 : Int) ≤ (calculateTotalStorageRequirements 2880 1 3 2 4 5 6 7 8).totalLockupNeeded ∧
    (4 : Int) ≤ (calculateTotalStorageRequirements 2880 1 3 2 4 5 6 7 8).totalRateNeeded :=
  calculateTotalStorageRequirements_monotone 2880 1 3 2 4 5 6 7 8
    (by decide) (by decide) (by decide) (by decide) (by decide)
    (by decide) (by decide) (by decide) (by decide)

/-- C4: For all non-negative inputs, totalDepositNeeded equals
max 0 (requiredBalanceForPeriod - currentBalance); in particular whenever
the required balance for the period is 700 and the balance is 1000 the
deposit needed is 0. -/
theorem calculateTotalStorageRequirements_deposit :
    (∀ (e clu cla cru cra nrn dlr d cb : Int),
      0 ≤ e → 0 ≤ clu → 0 ≤ cla → 0 ≤ cru → 0 ≤ cra → 0 ≤ nrn → 0 ≤ dlr → 0 ≤ d → 0 ≤ cb →
      (calculateTotalStorageRequirements e clu cla cru cra nrn dlr d cb).totalDepositNeeded
        = max 0 (requiredBalanceForPeriod e nrn d - cb)) ∧
    (∀ (e clu cla cru cra nrn dlr d : Int),
      0 ≤ e → 0 ≤ clu → 0 ≤ cla → 0 ≤ cru → 0 ≤ cra → 0 ≤ nrn → 0 ≤ dlr → 0 ≤ d →
      requiredBalanceForPeriod e nrn d = 700 →
      (calculateTotalStorageRequirements e clu cla cru cra nrn dlr d 1000).totalDepositNeeded = 0) := by
  have general : ∀ (e clu cla cru cra nrn dlr d cb : Int),
      (calculateTotalStorageRequirements e clu cla cru cra nrn dlr d cb).totalDepositNeeded
        = max 0 (requiredBalanceForPeriod e nrn d - cb) := by
    intro e clu cla cru cra nrn dlr d cb
    simp only [calculateTotalStorageRequirements, requiredBalanceForPeriod]
    generalize nrn * d * e = sc
    split <;> omega
  constructor
  · intro e clu cla cru cra nrn dlr d cb _ _ _ _ _ _ _ _ _
    exact general e clu cla cru cra nrn dlr d cb
  · intro e clu cla cru cra nrn dlr d _ _ _ _ _ _ _ _ h700
    rw [general e clu cla cru cra nrn dlr d 1000, h700]
    decide

/-- C4 witness: both parts of the theorem at concrete inputs; with an
epochs-per-day value of 700, a rate of 1 and one day, the required balance
for the period is 700 and a balance of 1000 needs no deposit. -/
theorem calculateTotalStorageRequirements_deposit_witness :
    (calculateTotalStorageRequirements 700 0 0 0 0 1 0 1 1000).totalDepositNeeded
      = max 0 (requiredBalanceForPeriod 700 1 1 - 1000) ∧
    (calculateTotalStorageRequirements 700 0 0 0 0 1 0 1 1000).totalDepositNeeded = 0 :=
  ⟨calculateTotalStorageRequirements_deposit.1 700 0 0 0 0 1 0 1 1000
      (by decide) (by decide) (by decide) (by decide) (by decide)
      (by decide) (by decide) (by decide) (by decide),
   calculateTotalStorageRequirements_deposit.2 700 0 0 0 0 1 0 1
      (by decide) (by decide) (by decide) (by decide) (by decide)
      (by decide) (by decide) (by decide) (by decide)⟩

/-- C8 counterexample: at minDaysThreshold -1 the sufficiency report is
sufficient, not trivially insufficient, and at persistencePeriodDays -1
the negative period is not clamped to zero: with lockup used 10 and daily
rate 5 the projected lockup is 10 - 5 = 5 (a clamped period would give
10). -/
theorem negative_config_counterexample :
    (calculateStorageSufficiency 100 0 30 0 5 (-1) false).isSufficient = true ∧
    (calculateTotalStorageRequirements 2880 10 0 0 0 0 5 (-1) 0).totalLockupNeeded = 5 := by
  decide

/-- C8 amended: the numeric engine functions are total on degenerate input
(they are plain functions of their integer arguments, raising no errors),
but negative configuration values are not clamped to zero: they propagate
through the arithmetic, so a negative minDaysThreshold makes the minimum
lockup negative and isLockupSufficient holds for any non-negative
remaining lockup (the report can be sufficient), and
calculateTotalStorageRequirements applies its max formulas to the signed
values unchanged. -/
theorem negative_config_behavior :
    (∀ (cra cru nrn rl dlr mdt : Int) (isAdd : Bool),
      0 ≤ rl → 0 < dlr → mdt < 0 →
      (calculateStorageSufficiency cra cru nrn rl dlr mdt isAdd).isLockupSufficient = true) ∧
    (∀ (e clu cla cru cra nrn dlr d cb : Int),
      (calculateTotalStorageRequirements e clu cla cru cra nrn dlr d cb).totalLockupNeeded
          = max cla (clu + dlr * d) ∧
      (calculateTotalStorageRequirements e clu cla cru cra nrn dlr d cb).totalRateNeeded
          = max cra (nrn + cru) ∧
      (calculateTotalStorageRequirements e clu cla cru cra nrn dlr d cb).totalDepositNeeded
          = max 0 (nrn * d * e - cb)) := by
  constructor
  · intro cra cru nrn rl dlr mdt isAdd hrl hdlr hmdt
    have hneg : dlr * mdt < 0 := mul_neg_of_pos_of_neg hdlr hmdt
    simp only [calculateStorageSufficiency]
    exact decide_eq_true (by omega)
  · intro e clu cla cru cra nrn dlr d cb
    simp only [calculateTotalStorageRequirements]
    generalize dlr * d = pc
    generalize nrn * d * e = sc
    refine ⟨?_, ?_, ?_⟩ <;> split <;> omega

/-- C8 amended witness: the lockup check passes at threshold -1 with zero
remaining lockup, and the unclamped max formulas at a concrete input with
a negative persistence period. -/
theorem negative_config_behavior_witness :
    (calculateStorageSufficiency 100 0 30 0 5 (-1) false).isLockupSufficient = true ∧
    ((calculateTotalStorageRequirements 2880 10 0 0 0 0 5 (-1) 0).totalLockupNeeded
        = max 0 (10 + 5 * (-1)) ∧
     (calculateTotalStorageRequirements 2880 10 0 0 0 0 5 (-1) 0).totalRateNeeded
        = max 0 (0 + 0) ∧
     (calculateTotalStorageRequirements 2880 10 0 0 0 0 5 (-1) 0).totalDepositNeeded
        = max 0 (0 * (-1) * 2880 - 0)) :=
  ⟨negative_config_behavior.1 100 0 30 0 5 (-1) false (by decide) (by decide) (by decide),
   negative_config_behavior.2 2880 10 0 0 0 0 5 (-1) 0⟩

/-- C3 counterexample: the Scenario A identifier (multihash length 34,
padding 0, height byte 5) parses, but its piece size is not 32768 and its
leaf count is not 1024. -/
theorem scenarioA_counterexample :
    parseCommPFromCidBytes scenarioACid = Except.ok ⟨0, 5, 7, List.replicate 32 0⟩ ∧
    computePieceSizeBytes 0 5 ≠ 32768 ∧
    computeLeafCount 0 5 ≠ 1024 := by
  decide

/-- C3 amended: the Scenario A identifier parses to padding 0 and height 5,
for which pieceSizeBytes = (1 << (5 + 5)) - 0 = 1024 and
leafCount = 1 << 5 = 32; in general pieceSizeBytes is
(1 << (height + 5)) - floor(128 * padding / 127) clamped below at 0. -/
theorem scenarioA_parse_and_size :
    parseCommPFromCidBytes scenarioACid = Except.ok ⟨0, 5, 7, List.replicate 32 0⟩ ∧
    computePieceSizeBytes 0 5 = 1024 ∧
    computeLeafCount 0 5 = 32 ∧
    (∀ (padding height : Nat),
      computePieceSizeBytes padding height
        = max ((2 : Int) ^ (height + 5) - ((128 * padding / 127 : Nat) : Int)) 0) := by
  refine ⟨by decide, by decide, by decide, ?_⟩
  intro padding height
  unfold computePieceSizeBytes
  dsimp only
  split <;> omega

/-- C6 counterexample: an identifier that leaves 33 bytes after the height
byte (multihash length 35) is accepted as well-formed; the parser slices
the first 32 of them as the digest instead of rejecting the identifier. -/
theorem oversizedDigest_accepted :
    oversizedDigestCid.length - 7 = 33 ∧
    parseCommPFromCidBytes oversizedDigestCid = Except.ok ⟨0, 5, 7, List.replicate 32 0⟩ := by
  decide

/-- C6 amended: after tag, multihash length, padding and height the parser
requires at least 32 remaining bytes: any accepted identifier has at least
32 bytes after the digest offset and its digest is the first 32 of them,
and an identifier with fewer than 32 remaining bytes fails with the
too-short digest error. -/
theorem parse_digest_bounds :
    (∀ (data : List Nat) (p : ParsedCommP),
      parseCommPFromCidBytes data = Except.ok p →
      32 ≤ data.length - p.digestOffset ∧
      p.digest = (data.drop p.digestOffset).take 32) ∧
    parseCommPFromCidBytes shortDigestCid = Except.error "Cid data is too short for digest" := by
  constructor
  · intro data p h
    simp only [parseCommPFromCidBytes] at h
    split at h
    · exact absurd h (by simp)
    · split_ifs at h with h1 h2 h3 h4 h5
      injection h with h'
      subst h'
      dsimp only
      refine ⟨by omega, rfl⟩
  · decide

/-- C6 amended witness: the first part of the theorem applied to the
Scenario A identifier and its parse result. -/
theorem parse_digest_bounds_witness :
    32 ≤ scenarioACid.length - (ParsedCommP.mk 0 5 7 (List.replicate 32 0)).digestOffset ∧
    (ParsedCommP.mk 0 5 7 (List.replicate 32 0)).digest
      = (scenarioACid.drop (ParsedCommP.mk 0 5 7 (List.replicate 32 0)).digestOffset).take 32 :=
  parse_digest_bounds.1 scenarioACid (ParsedCommP.mk 0 5 7 (List.replicate 32 0)) (by decide)

/-- Helper for C9: the two-character encoding of a byte decodes back to
that byte under hexPairVal. -/
theorem hexPairVal_encodes (b : Nat) (hb : b < 256) :
    ∃ c1 c2, byteToHexChars b = [c1, c2] ∧ hexPairVal c1 c2 = b := by
  have hnib : ∀ n, n < 16 → hexDigitVal (hexDigitChar n) = some n := by decide
  unfold byteToHexChars
  split
  · next h =>
    refine ⟨'0', hexDigitChar b, rfl, ?_⟩
    unfold hexPairVal
    rw [show hexDigitVal '0' = some 0 from by decide, hnib b h]
    dsimp only
    omega
  · next h =>
    refine ⟨hexDigitChar (b / 16), hexDigitChar (b % 16), rfl, ?_⟩
    unfold hexPairVal
    rw [hnib (b / 16) (by omega), hnib (b % 16) (by omega)]
    dsimp only
    omega

/-- Helper for C9: decoding the full pair encoding of a byte list is the
identity, and the encoding has even length. -/
theorem hexPairsToBytes_flatMap :
    ∀ (b : List Nat), (∀ x ∈ b, x < 256) →
      hexPairsToBytes (b.flatMap byteToHexChars) = b ∧
      (b.flatMap byteToHexChars).length % 2 = 0 := by
  intro b
  induction b with
  | nil => intro _; exact ⟨rfl, rfl⟩
  | cons x t ih =>
    intro hb
    have hx : x < 256 := hb x (List.mem_cons_self x t)
    obtain ⟨c1, c2, henc, hval⟩ := hexPairVal_encodes x hx
    obtain ⟨ih1, ih2⟩ := ih (fun y hy => hb y (List.mem_cons_of_mem x hy))
    constructor
    · rw [List.flatMap_cons, henc, List.cons_append, List.cons_append, List.nil_append]
      show hexPairVal c1 c2 :: hexPairsToBytes (t.flatMap byteToHexChars) = x :: t
      rw [hval, ih1]
    · rw [List.flatMap_cons, henc]
      simp only [List.length_append, List.length_cons, List.length_nil]
      omega

/-- C9: hex encoding followed by hex decoding is the identity on byte
arrays; hexToBytes accepts the 0x-prefixed output of bytesToHex without
error. -/
theorem hexToBytes_bytesToHex_roundtrip :
    ∀ (b : List Nat), (∀ x ∈ b, x < 256) →
      hexToBytes (bytesToHex b) = Except.ok b := by
  intro b hb
  obtain ⟨h1, h2⟩ := hexPairsToBytes_flatMap b hb
  unfold hexToBytes bytesToHex
  dsimp only
  rw [show (List.take 2 (['0', 'x'] ++ b.flatMap byteToHexChars)) = ['0', 'x'] from rfl]
  rw [if_pos rfl]
  rw [show (List.drop 2 (['0', 'x'] ++ b.flatMap byteToHexChars)) = b.flatMap byteToHexChars from rfl]
  rw [if_neg (by omega), h1]

/-- C9 witness: the round trip at the concrete byte array [0, 171, 255]. -/
theorem hexToBytes_bytesToHex_roundtrip_witness :
    hexToBytes (bytesToHex [0, 171, 255]) = Except.ok [0, 171, 255] :=
  hexToBytes_bytesToHex_roundtrip [0, 171, 255] (by decide)
